import Mathlib

/-!
Shallow embedding of the demo payment-orchestration API.

The repository holds three implementations of the same HTTP endpoints:
the strict-guard server in src/backend/server.js, and two further
variants in src/unnamed/part_000 (variant 1 at lines 1-253, variant 2 at
lines 253-584).  Each route handler is embedded as a pure function from
the in-memory store (the JS object paymentsDb) and the already-parsed
request body to a response and the new store.  Timestamps
(new Date().toISOString()) are abstracted as a Nat parameter `now`,
uuid generation as an explicit id parameter, and HMAC-SHA256
(generateSignature, which hashes JSON.stringify of the payload
\x7bpaymentId, status\x7d) as an abstract function
`sigOf : String → String → String` applied to paymentId and status.
-/

namespace Payment

/-- Mapping stored under the callbackUrls field by the redirect handler:
keys success, failure, cancel (server.js lines 79-87). -/
structure CallbackUrls where
  success : String
  failure : String
  cancel : String
deriving DecidableEq

/-- JS object indexing `urls[k]`: a present key yields its value, any
other key yields undefined, modelled as none. -/
def CallbackUrls.lookup (u : CallbackUrls) (k : String) : Option String :=
  if k = "success" then some u.success
  else if k = "failure" then some u.failure
  else if k = "cancel" then some u.cancel
  else none

/-- Body field cardDetails of the create endpoint. -/
structure CardDetails where
  number : String
  expiry : String
  cvv : String
deriving DecidableEq

/-- A record of the paymentsDb object.  JS records only carry the fields
a handler has assigned; absent fields are modelled as none defaults.
The strict server assigns paymentId, orderId, amount, currency, status,
callbackUrls, createdAt at redirect time (server.js lines 79-87) and
cardLast4, capturedAmount, refundedAmount, updatedAt on later
transitions; the variant-1 create handler builds records with cardLast4
and cardExpiry (part_000 lines 122-131, where the identifier field is
spelled id and the card fields sit in a nested cardDetails object). -/
structure PaymentRecord where
  paymentId : String
  status : String
  createdAt : Nat
  orderId : Option String := none
  amount : Option Int := none
  currency : Option String := none
  callbackUrls : Option CallbackUrls := none
  cardLast4 : Option String := none
  cardExpiry : Option String := none
  capturedAmount : Option Int := none
  refundedAmount : Option Int := none
  updatedAt : Option Nat := none
deriving DecidableEq

/-- HTTP response, reduced to the parts the specification talks about:
the status code, the error message of an error body, and the
redirectUrl field of redirect/callback success bodies.  Response fields
built from fresh uuids (transactionId, captureId, refundId,
cancellationId) are not modelled. -/
structure Resp where
  code : Nat
  errMsg : Option String := none
  redirectUrl : Option String := none
deriving DecidableEq

/-- The in-memory paymentsDb object: keys in insertion order. -/
abbrev Store := List (String × PaymentRecord)

/-- JS property read `paymentsDb[key]`; undefined is none. -/
def Store.get : Store → String → Option PaymentRecord
  | [], _ => none
  | e :: rest, key => if e.1 = key then some e.2 else Store.get rest key

/-- JS property write `paymentsDb[key] = v` (also the effect of mutating
the looked-up record in place): an existing key is overwritten in
place, a new key is appended. -/
def Store.set : Store → String → PaymentRecord → Store
  | [], key, v => [(key, v)]
  | e :: rest, key, v => if e.1 = key then (key, v) :: rest else e :: Store.set rest key v

/-- JS `s || "USD"` (server.js line 83): undefined and the empty string
are falsy and give the default. -/
def jsOr (s : Option String) (d : String) : String :=
  match s with
  | none => d
  | some c => if c = "" then d else c

/-- JS template-literal interpolation of a possibly-undefined value:
undefined prints as the string undefined. -/
def jsStr (s : Option String) : String :=
  match s with
  | none => "undefined"
  | some c => c

/-- JS `s.slice (-4)`: the last four characters (the whole string when
it is shorter). -/
def sliceLast4 (s : String) : String :=
  String.mk (s.data.drop (s.data.length - 4))

/-- POST /api/redirect, strict server (server.js lines 64-97).  The
express-validator outcome (orderId nonempty, amount numeric, the three
callback URLs well-formed) is abstracted as the flag `valid`, checked
by the handler via validationResult; `pid` is the generated
pay_<uuidv4> identifier, `token` the random token and `domain` the
PAYMENT_DOMAIN environment variable.  The variant-1 redirect handler
(part_000 lines 81-114) is the same function. -/
def redirectPayment (db : Store) (valid : Bool) (orderId : String) (amount : Int)
    (currency : Option String) (urls : CallbackUrls) (pid : String)
    (token : String) (domain : String) (now : Nat) : Resp × Store :=
  if valid then
    let record : PaymentRecord :=
      { paymentId := pid, orderId := some orderId, amount := some amount,
        currency := some (jsOr currency "USD"), status := "pending",
        callbackUrls := some urls, createdAt := now }
    ({ code := 200,
       redirectUrl := some (domain ++ "/checkout?paymentId=" ++ pid ++ "&token=" ++ token) },
     db.set pid record)
  else
    ({ code := 400, errMsg := some "validation errors" }, db)

/-- POST /api/payments/create, strict server (server.js lines 100-130):
after validation, a missing record gives 404; otherwise status becomes
created, cardLast4 stores the last four characters of the card number,
and updatedAt is refreshed.  Neither the full number nor cvv nor expiry
is written to the record. -/
def createPayment (db : Store) (valid : Bool) (pid : String) (card : CardDetails)
    (now : Nat) : Resp × Store :=
  if valid then
    match db.get pid with
    | none => ({ code := 404, errMsg := some "Payment not found" }, db)
    | some payment =>
      ({ code := 200 },
       db.set pid { payment with status := "created", cardLast4 := some (sliceLast4 card.number), updatedAt := some now })
  else
    ({ code := 400, errMsg := some "validation errors" }, db)

/-- POST /api/payments/capture, strict server (server.js lines 133-159):
404 when missing, 400 when status is not created, otherwise status
becomes captured and capturedAmount records the request amount.  (The
declared validators are never checked through validationResult in this
handler, so no valid flag appears.) -/
def capturePayment (db : Store) (pid : String) (amount : Int) (now : Nat) : Resp × Store :=
  match db.get pid with
  | none => ({ code := 404, errMsg := some "Payment not found" }, db)
  | some payment =>
    if payment.status ≠ "created" then
      ({ code := 400, errMsg := some "Payment not in creatable state" }, db)
    else
      ({ code := 200 },
       db.set pid { payment with status := "captured", capturedAmount := some amount, updatedAt := some now })

/-- POST /api/payments/refund, strict server (server.js lines 162-187):
404 when missing, 400 when status is not captured, otherwise status
becomes refunded and refundedAmount records the request amount. -/
def refundPayment (db : Store) (pid : String) (amount : Int) (now : Nat) : Resp × Store :=
  match db.get pid with
  | none => ({ code := 404, errMsg := some "Payment not found" }, db)
  | some payment =>
    if payment.status ≠ "captured" then
      ({ code := 400, errMsg := some "Payment not refundable" }, db)
    else
      ({ code := 200 },
       db.set pid { payment with status := "refunded", refundedAmount := some amount, updatedAt := some now })

/-- POST /api/payments/cancel, strict server (server.js lines 190-212):
404 when missing, 400 unless status is pending or created, otherwise
status becomes canceled.  The variant-1 cancel handler (part_000 lines
187-209) is the same function. -/
def cancelPayment (db : Store) (pid : String) (now : Nat) : Resp × Store :=
  match db.get pid with
  | none => ({ code := 404, errMsg := some "Payment not found" }, db)
  | some payment =>
    if payment.status ∉ (["pending", "created"] : List String) then
      ({ code := 400, errMsg := some "Payment not cancelable" }, db)
    else
      ({ code := 200 },
       db.set pid { payment with status := "canceled", updatedAt := some now })

/-- POST /api/callback, strict server (server.js lines 215-244): 404
when the record is missing; then the x-signature header `sig` is
compared with the HMAC of the received body (sigOf applied to paymentId
and status); on mismatch 403 with no mutation; otherwise status is
overwritten with the supplied value, updatedAt refreshed, and the
response carries `callbackUrls[status]` interpolated into a template
literal with a trailing signed query parameter.  A record without
callbackUrls would make that indexing throw; the catch-all middleware
turns this into a 500 after the mutation has already happened.  (The
isIn validator on status is declared but never checked via
validationResult, so status is not constrained by this handler.) -/
def callbackPayment (sigOf : String → String → String) (db : Store)
    (pid : String) (status : String) (sig : String) (now : Nat) : Resp × Store :=
  match db.get pid with
  | none => ({ code := 404, errMsg := some "Payment not found" }, db)
  | some payment =>
    if sig ≠ sigOf pid status then
      ({ code := 403, errMsg := some "Invalid signature" }, db)
    else
      let db' := db.set pid { payment with status := status, updatedAt := some now }
      match payment.callbackUrls with
      | none => ({ code := 500, errMsg := some "Internal server error" }, db')
      | some urls =>
        ({ code := 200,
           redirectUrl := some (jsStr (urls.lookup status) ++ "&sig=" ++ sigOf pid status) },
         db')

/-- POST /api/payments/create, variant 1 (part_000 lines 116-138): no
validationResult check and no existence check; the handler overwrites
paymentsDb[paymentId] with a fresh record of status created that keeps
only the last four digits and the expiry of the card. -/
def createPaymentV1 (db : Store) (pid : String) (card : CardDetails) (now : Nat) :
    Resp × Store :=
  ({ code := 200 },
   db.set pid { paymentId := pid, status := "created",
                cardLast4 := some (sliceLast4 card.number),
                cardExpiry := some card.expiry,
                createdAt := now, updatedAt := some now })

/-- POST /api/payments/capture, variant 1 (part_000 lines 140-162):
like the strict capture but with no status guard at all. -/
def capturePaymentV1 (db : Store) (pid : String) (amount : Int) (now : Nat) :
    Resp × Store :=
  match db.get pid with
  | none => ({ code := 404, errMsg := some "Payment not found" }, db)
  | some payment =>
    ({ code := 200 },
     db.set pid { payment with status := "captured", capturedAmount := some amount, updatedAt := some now })

/-- POST /api/payments/refund, variant 1 (part_000 lines 164-185):
like the strict refund but with no status guard at all. -/
def refundPaymentV1 (db : Store) (pid : String) (amount : Int) (now : Nat) :
    Resp × Store :=
  match db.get pid with
  | none => ({ code := 404, errMsg := some "Payment not found" }, db)
  | some payment =>
    ({ code := 200 },
     db.set pid { payment with status := "refunded", refundedAmount := some amount, updatedAt := some now })

/-- POST /api/callback, variant 1 (part_000 lines 211-241): existence
check, then signature check as in the strict server; on success the
status is overwritten and the redirectUrl is built only when
`payment.callbackUrls ? payment.callbackUrls[status] : null` is truthy
(undefined, null and the empty string all give a null redirectUrl). -/
def callbackPaymentV1 (sigOf : String → String → String) (db : Store)
    (pid : String) (status : String) (sig : String) (now : Nat) : Resp × Store :=
  match db.get pid with
  | none => ({ code := 404, errMsg := some "Payment not found" }, db)
  | some payment =>
    if sig ≠ sigOf pid status then
      ({ code := 403, errMsg := some "Invalid signature" }, db)
    else
      let db' := db.set pid { payment with status := status, updatedAt := some now }
      let callbackUrl : Option String :=
        match payment.callbackUrls with
        | none => none
        | some urls => urls.lookup status
      let signedUrl : Option String :=
        match callbackUrl with
        | none => none
        | some u => if u = "" then none else some (u ++ "&sig=" ++ sigOf pid status)
      ({ code := 200, redirectUrl := signedUrl }, db')

/-- POST /api/callback, variant 2 (part_000 lines 475-520): existence
check, then an in-handler membership check on status; NO signature
header is ever read.  On success the status is overwritten and the
redirect URL is picked by a switch that maps success, failed, canceled
to the success, failure, cancel keys respectively.  A record without
callbackUrls would throw inside the try block; the catch answers 500
after the mutation has already happened. -/
def callbackPaymentV2 (sigOf : String → String → String) (db : Store)
    (pid : String) (status : String) (now : Nat) : Resp × Store :=
  match db.get pid with
  | none => ({ code := 404, errMsg := some "Payment not found" }, db)
  | some payment =>
    if status ∉ (["success", "failed", "canceled"] : List String) then
      ({ code := 400, errMsg := some "Invalid status" }, db)
    else
      let db' := db.set pid { payment with status := status, updatedAt := some now }
      match payment.callbackUrls with
      | none => ({ code := 500, errMsg := some "Internal server error" }, db')
      | some urls =>
        let u := if status = "success" then urls.success
                 else if status = "failed" then urls.failure
                 else urls.cancel
        ({ code := 200, redirectUrl := some (u ++ "&sig=" ++ sigOf pid status) }, db')

/-- One request against the strict server, with its body and ambient
data (generated id, validation outcome, clock). -/
inductive Op where
  | redirect (valid : Bool) (orderId : String) (amount : Int) (currency : Option String)
      (urls : CallbackUrls) (pid : String) (token : String) (now : Nat)
  | create (valid : Bool) (pid : String) (card : CardDetails) (now : Nat)
  | capture (pid : String) (amount : Int) (now : Nat)
  | refund (pid : String) (amount : Int) (now : Nat)
  | cancel (pid : String) (now : Nat)
  | callback (pid : String) (status : String) (sig : String) (now : Nat)

/-- Effect of one strict-server request on the store. -/
def applyOp (sigOf : String → String → String) (domain : String) : Op → Store → Store
  | .redirect valid orderId amount currency urls pid token now, db =>
      (redirectPayment db valid orderId amount currency urls pid token domain now).2
  | .create valid pid card now, db => (createPayment db valid pid card now).2
  | .capture pid amount now, db => (capturePayment db pid amount now).2
  | .refund pid amount now, db => (refundPayment db pid amount now).2
  | .cancel pid now, db => (cancelPayment db pid now).2
  | .callback pid status sig now, db => (callbackPayment sigOf db pid status sig now).2

/-- Environmental well-formedness of a request: redirect ids generated
by uuidv4 are fresh for the store, and callback bodies respect the
schema of section 6 of the specification (status among success, failed,
canceled).  Neither fact is enforced by the code itself. -/
def wfOp (db : Store) : Op → Bool
  | .redirect _ _ _ _ _ pid _ _ => decide (db.get pid = none)
  | .callback _ status _ _ =>
      decide (status = "success" ∨ status = "failed" ∨ status = "canceled")
  | _ => true

/-- The status edges the strict server can traverse on an existing
record: any status to created via create, created to captured, captured
to refunded, pending or created to canceled, and any status to a
callback-supplied terminal value. -/
def allowedEdge (s t : String) : Bool :=
  t = "created" ||
  (s = "created" && t = "captured") ||
  (s = "captured" && t = "refunded") ||
  ((s = "pending" || s = "created") && t = "canceled") ||
  t = "success" || t = "failed" || t = "canceled"

theorem Store.get_set_self (db : Store) (k : String) (v : PaymentRecord) :
    (db.set k v).get k = some v := by
  induction db with
  | nil => simp [Store.set, Store.get]
  | cons e rest ih =>
    by_cases h : e.1 = k
    · simp [Store.set, Store.get, h]
    · simp [Store.set, Store.get, h, ih]

theorem Store.get_set_ne (db : Store) (k k' : String) (v : PaymentRecord)
    (h : k' ≠ k) : (db.set k v).get k' = db.get k' := by
  have h2 : ¬ (k = k') := fun e => h e.symm
  induction db with
  | nil => simp [Store.set, Store.get, h2]
  | cons e rest ih =>
    by_cases he : e.1 = k
    · simp [Store.set, Store.get, he, h2]
    · simp [Store.set, Store.get, he, ih]

theorem Store.get_set_cases (db : Store) (k pid : String) (v r' : PaymentRecord)
    (h' : (db.set k v).get pid = some r') :
    (pid = k ∧ r' = v) ∨ (pid ≠ k ∧ db.get pid = some r') := by
  by_cases e : pid = k
  · subst e
    rw [Store.get_set_self] at h'
    exact Or.inl ⟨rfl, (Option.some.inj h').symm⟩
  · exact Or.inr ⟨e, by rwa [Store.get_set_ne db k pid v e] at h'⟩

/-- C4: under the strict-guard variant (src/backend/server.js), capture
of an existing record whose status is not created (in particular
pending) answers the state-conflict code 400 and leaves the store, and
hence the record, unchanged; capture from status created answers 200,
sets the status to captured and records capturedAmount. -/
theorem capture_strict_guard (db : Store) (pid : String) (amount : Int) (now : Nat)
    (r : PaymentRecord) (hr : db.get pid = some r) :
    (r.status ≠ "created" →
      (capturePayment db pid amount now).1.code = 400 ∧
      (capturePayment db pid amount now).2 = db) ∧
    (r.status = "created" →
      (capturePayment db pid amount now).1.code = 200 ∧
      (capturePayment db pid amount now).2 = db.set pid { r with status := "captured", capturedAmount := some amount, updatedAt := some now }) := by
  constructor
  · intro h
    simp [capturePayment, hr, h]
  · intro h
    simp [capturePayment, hr, h]

/-- C4 witness: capture_strict_guard applied to a one-record store
whose record has status pending: the capture answers 400 and the store
is untouched. -/
theorem capture_strict_guard_witness :
    (Store.get [("p", { paymentId := "p", status := "pending", createdAt := 0 })] "p"
        = some ({ paymentId := "p", status := "pending", createdAt := 0 } : PaymentRecord)) ∧
    (({ paymentId := "p", status := "pending", createdAt := 0 } : PaymentRecord).status ≠ "created") ∧
    ((capturePayment [("p", { paymentId := "p", status := "pending", createdAt := 0 })] "p" 5 1).1.code = 400 ∧
      (capturePayment [("p", { paymentId := "p", status := "pending", createdAt := 0 })] "p" 5 1).2
        = [("p", { paymentId := "p", status := "pending", createdAt := 0 })]) :=
  ⟨by decide, by decide,
   (capture_strict_guard [("p", { paymentId := "p", status := "pending", createdAt := 0 })] "p" 5 1
     { paymentId := "p", status := "pending", createdAt := 0 } (by decide)).1 (by decide)⟩

/-- C5 counterexample: the variant-1 refund handler (part_000 lines
164-185) has no status guard, so refunding an existing record whose
status is canceled answers 200 and rewrites the record to refunded,
against the claim that refunding a canceled record fails and leaves the
record unchanged. -/
theorem refundV1_refunds_canceled_cex :
    (refundPaymentV1 [("p", { paymentId := "p", status := "canceled", createdAt := 0 })] "p" 5 1).1.code = 200 ∧
    (refundPaymentV1 [("p", { paymentId := "p", status := "canceled", createdAt := 0 })] "p" 5 1).2
      = [("p", { paymentId := "p", status := "refunded", createdAt := 0, refundedAmount := some 5, updatedAt := some 1 })] := by
  decide

/-- C5 amended: under the strict-guard variant (src/backend/server.js)
refund of an existing record succeeds exactly when its status is
captured, setting the status to refunded and recording refundedAmount;
for any other status (in particular canceled and pending) it answers
400 and leaves the store unchanged. -/
theorem refund_strict_guard (db : Store) (pid : String) (amount : Int) (now : Nat)
    (r : PaymentRecord) (hr : db.get pid = some r) :
    (r.status ≠ "captured" →
      (refundPayment db pid amount now).1.code = 400 ∧
      (refundPayment db pid amount now).2 = db) ∧
    (r.status = "captured" →
      (refundPayment db pid amount now).1.code = 200 ∧
      (refundPayment db pid amount now).2 = db.set pid { r with status := "refunded", refundedAmount := some amount, updatedAt := some now }) := by
  constructor
  · intro h
    simp [refundPayment, hr, h]
  · intro h
    simp [refundPayment, hr, h]

/-- C5 witness: refund_strict_guard applied to a one-record store whose
record has status canceled: the refund answers 400 and the store is
untouched. -/
theorem refund_strict_guard_witness :
    (Store.get [("p", { paymentId := "p", status := "canceled", createdAt := 0 })] "p"
        = some ({ paymentId := "p", status := "canceled", createdAt := 0 } : PaymentRecord)) ∧
    (({ paymentId := "p", status := "canceled", createdAt := 0 } : PaymentRecord).status ≠ "captured") ∧
    ((refundPayment [("p", { paymentId := "p", status := "canceled", createdAt := 0 })] "p" 5 1).1.code = 400 ∧
      (refundPayment [("p", { paymentId := "p", status := "canceled", createdAt := 0 })] "p" 5 1).2
        = [("p", { paymentId := "p", status := "canceled", createdAt := 0 })]) :=
  ⟨by decide, by decide,
   (refund_strict_guard [("p", { paymentId := "p", status := "canceled", createdAt := 0 })] "p" 5 1
     { paymentId := "p", status := "canceled", createdAt := 0 } (by decide)).1 (by decide)⟩

/-- C6: cancel of an existing record succeeds exactly when its status
is pending or created, setting the status to canceled; for every other
status it answers 400 and leaves the store unchanged (strict server,
src/backend/server.js lines 190-212; the variant-1 handler is the same
function). -/
theorem cancel_guard (db : Store) (pid : String) (now : Nat)
    (r : PaymentRecord) (hr : db.get pid = some r) :
    ((r.status = "pending" ∨ r.status = "created") →
      (cancelPayment db pid now).1.code = 200 ∧
      (cancelPayment db pid now).2 = db.set pid { r with status := "canceled", updatedAt := some now }) ∧
    (r.status ≠ "pending" → r.status ≠ "created" →
      (cancelPayment db pid now).1.code = 400 ∧
      (cancelPayment db pid now).2 = db) := by
  constructor
  · rintro (h | h) <;> simp [cancelPayment, hr, h]
  · intro h1 h2
    simp [cancelPayment, hr, h1, h2]

/-- C6 witness: cancel_guard applied to a one-record store whose record
has status pending: the cancel answers 200 and the record becomes
canceled. -/
theorem cancel_guard_witness :
    (Store.get [("p", { paymentId := "p", status := "pending", createdAt := 0 })] "p"
        = some ({ paymentId := "p", status := "pending", createdAt := 0 } : PaymentRecord)) ∧
    (({ paymentId := "p", status := "pending", createdAt := 0 } : PaymentRecord).status = "pending"
        ∨ ({ paymentId := "p", status := "pending", createdAt := 0 } : PaymentRecord).status = "created") ∧
    ((cancelPayment [("p", { paymentId := "p", status := "pending", createdAt := 0 })] "p" 1).1.code = 200 ∧
      (cancelPayment [("p", { paymentId := "p", status := "pending", createdAt := 0 })] "p" 1).2
        = [("p", { paymentId := "p", status := "canceled", createdAt := 0, updatedAt := some 1 })]) :=
  ⟨by decide, by decide,
   by
     have h := (cancel_guard [("p", { paymentId := "p", status := "pending", createdAt := 0 })] "p" 1
       { paymentId := "p", status := "pending", createdAt := 0 } (by decide)).1 (Or.inl (by decide))
     exact ⟨h.1, by rw [h.2]; decide⟩⟩

/-- C3 counterexample: the variant-1 create handler (part_000 lines
116-138) has no existence check: called with a paymentId absent from
the store it answers 200 (not 404) and inserts a new record, changing
the store. -/
theorem createV1_unknown_id_inserts_cex :
    Store.get ([] : Store) "p" = none ∧
    (createPaymentV1 [] "p" { number := "4242424242424242", expiry := "12/30", cvv := "123" } 0).1.code = 200 ∧
    (createPaymentV1 [] "p" { number := "4242424242424242", expiry := "12/30", cvv := "123" } 0).2 ≠ ([] : Store) := by
  decide

/-- C3 amended: under the strict-guard server (src/backend/server.js),
for a paymentId absent from the store each of create (with a
validation-passing body), capture, refund, cancel and callback answers
404 and returns the store unchanged; the variant-1 create handler
instead inserts a new record under the unknown paymentId. -/
theorem unknown_paymentId_returns_404 (sigOf : String → String → String) (db : Store)
    (pid : String) (card : CardDetails) (amount : Int) (status sig : String) (now : Nat)
    (h : db.get pid = none) :
    ((createPayment db true pid card now).1.code = 404 ∧
      (createPayment db true pid card now).2 = db) ∧
    ((capturePayment db pid amount now).1.code = 404 ∧
      (capturePayment db pid amount now).2 = db) ∧
    ((refundPayment db pid amount now).1.code = 404 ∧
      (refundPayment db pid amount now).2 = db) ∧
    ((cancelPayment db pid now).1.code = 404 ∧
      (cancelPayment db pid now).2 = db) ∧
    ((callbackPayment sigOf db pid status sig now).1.code = 404 ∧
      (callbackPayment sigOf db pid status sig now).2 = db) := by
  refine ⟨?_, ?_, ?_, ?_, ?_⟩ <;>
    simp [createPayment, capturePayment, refundPayment, cancelPayment, callbackPayment, h]

/-- C3 witness: unknown_paymentId_returns_404 applied to the empty
store: a create call for the id p answers 404 and the store stays
empty. -/
theorem unknown_paymentId_returns_404_witness :
    Store.get ([] : Store) "p" = none ∧
    ((createPayment [] true "p" { number := "4242424242424242", expiry := "12/30", cvv := "123" } 0).1.code = 404 ∧
      (createPayment [] true "p" { number := "4242424242424242", expiry := "12/30", cvv := "123" } 0).2 = ([] : Store)) :=
  ⟨by decide,
   (unknown_paymentId_returns_404 (fun _ _ => "hmac") [] "p"
     { number := "4242424242424242", expiry := "12/30", cvv := "123" } 1 "success" "sig" 0 (by decide)).1⟩

/-- C1 counterexample: the variant-2 callback handler (part_000 lines
475-520) reads no x-signature header at all, so a callback request
whose supplied x-signature (here the string forged) differs from the
HMAC of the body (here the string hmac, the value of sigOf) is still
processed: it answers 200, not 403, and rewrites the status and
updatedAt of the record. -/
theorem callbackV2_no_signature_check_cex :
    ("forged" ≠ (fun _ _ => "hmac" : String → String → String) "p" "failed") ∧
    (callbackPaymentV2 (fun _ _ => "hmac") [("p", { paymentId := "p", status := "pending", createdAt := 0, callbackUrls := some { success := "https://x/s", failure := "https://x/f", cancel := "https://x/c" } })] "p" "failed" 1).1.code = 200 ∧
    Store.get (callbackPaymentV2 (fun _ _ => "hmac") [("p", { paymentId := "p", status := "pending", createdAt := 0, callbackUrls := some { success := "https://x/s", failure := "https://x/f", cancel := "https://x/c" } })] "p" "failed" 1).2 "p"
      = some ({ paymentId := "p", status := "failed", createdAt := 0, callbackUrls := some { success := "https://x/s", failure := "https://x/f", cancel := "https://x/c" }, updatedAt := some 1 } : PaymentRecord) := by
  decide

/-- C1 amended: under the two callback handlers that verify the
x-signature header (the strict server and variant 1), a callback
request for an existing record whose x-signature differs from the HMAC
of the received body is rejected with 403 and the store, hence the
record with its status and updatedAt, is unchanged; the variant-2
callback handler performs no signature verification and processes such
a request. -/
theorem callback_bad_signature_rejected (sigOf : String → String → String) (db : Store)
    (pid status sig : String) (now : Nat) (r : PaymentRecord)
    (hr : db.get pid = some r) (hsig : sig ≠ sigOf pid status) :
    ((callbackPayment sigOf db pid status sig now).1.code = 403 ∧
      (callbackPayment sigOf db pid status sig now).2 = db) ∧
    ((callbackPaymentV1 sigOf db pid status sig now).1.code = 403 ∧
      (callbackPaymentV1 sigOf db pid status sig now).2 = db) := by
  constructor <;> simp [callbackPayment, callbackPaymentV1, hr, hsig]

/-- C1 witness: callback_bad_signature_rejected on a one-record store,
with the HMAC abstracted as the constant function hmac and the header
value forged. -/
theorem callback_bad_signature_rejected_witness :
    (Store.get [("p", { paymentId := "p", status := "pending", createdAt := 0 })] "p"
        = some ({ paymentId := "p", status := "pending", createdAt := 0 } : PaymentRecord)) ∧
    ("forged" ≠ (fun _ _ => "hmac" : String → String → String) "p" "success") ∧
    (((callbackPayment (fun _ _ => "hmac") [("p", { paymentId := "p", status := "pending", createdAt := 0 })] "p" "success" "forged" 1).1.code = 403 ∧
      (callbackPayment (fun _ _ => "hmac") [("p", { paymentId := "p", status := "pending", createdAt := 0 })] "p" "success" "forged" 1).2
        = [("p", { paymentId := "p", status := "pending", createdAt := 0 })]) ∧
     ((callbackPaymentV1 (fun _ _ => "hmac") [("p", { paymentId := "p", status := "pending", createdAt := 0 })] "p" "success" "forged" 1).1.code = 403 ∧
      (callbackPaymentV1 (fun _ _ => "hmac") [("p", { paymentId := "p", status := "pending", createdAt := 0 })] "p" "success" "forged" 1).2
        = [("p", { paymentId := "p", status := "pending", createdAt := 0 })])) :=
  ⟨by decide, by decide,
   callback_bad_signature_rejected (fun _ _ => "hmac")
     [("p", { paymentId := "p", status := "pending", createdAt := 0 })] "p" "success" "forged" 1
     { paymentId := "p", status := "pending", createdAt := 0 } (by decide) (by decide)⟩

/-- C10: both signature-checking callback handlers check record
existence before verifying the signature: an unknown paymentId answers
404 whatever the x-signature header holds, while an existing paymentId
with a wrong signature answers 403 — so a caller without the HMAC
secret can tell existing paymentIds (403) from non-existing ones
(404). -/
theorem callback_existence_before_signature (sigOf : String → String → String) (db : Store)
    (pid status sig : String) (now : Nat) :
    (db.get pid = none →
      (callbackPayment sigOf db pid status sig now).1.code = 404 ∧
      (callbackPaymentV1 sigOf db pid status sig now).1.code = 404) ∧
    (∀ r, db.get pid = some r → sig ≠ sigOf pid status →
      (callbackPayment sigOf db pid status sig now).1.code = 403 ∧
      (callbackPaymentV1 sigOf db pid status sig now).1.code = 403) := by
  constructor
  · intro h
    simp [callbackPayment, callbackPaymentV1, h]
  · intro r h hs
    simp [callbackPayment, callbackPaymentV1, h, hs]

/-- C10 witness: callback_existence_before_signature applied twice with
the same forged signature: on the empty store the answer is 404, on a
one-record store it is 403. -/
theorem callback_existence_before_signature_witness :
    (Store.get ([] : Store) "p" = none ∧
      (callbackPayment (fun _ _ => "hmac") [] "p" "success" "forged" 1).1.code = 404) ∧
    (Store.get [("p", { paymentId := "p", status := "pending", createdAt := 0 })] "p"
        = some ({ paymentId := "p", status := "pending", createdAt := 0 } : PaymentRecord) ∧
      (callbackPayment (fun _ _ => "hmac") [("p", { paymentId := "p", status := "pending", createdAt := 0 })] "p" "success" "forged" 1).1.code = 403) :=
  ⟨⟨by decide,
    ((callback_existence_before_signature (fun _ _ => "hmac") [] "p" "success" "forged" 1).1 (by decide)).1⟩,
   ⟨by decide,
    ((callback_existence_before_signature (fun _ _ => "hmac")
        [("p", { paymentId := "p", status := "pending", createdAt := 0 })] "p" "success" "forged" 1).2
      { paymentId := "p", status := "pending", createdAt := 0 } (by decide) (by decide)).1⟩⟩

/-- C7: a valid redirect call whose generated paymentId is fresh for
the store (the uuidv4 freshness assumption: the generated id differs
from every id already present) answers 200 and inserts a new record
with status pending under that id, and every record already in the
store is still there unchanged afterwards. -/
theorem redirect_creates_pending_fresh (db : Store) (orderId : String) (amount : Int)
    (currency : Option String) (urls : CallbackUrls) (pid token domain : String) (now : Nat)
    (hfresh : db.get pid = none) :
    (redirectPayment db true orderId amount currency urls pid token domain now).1.code = 200 ∧
    Store.get (redirectPayment db true orderId amount currency urls pid token domain now).2 pid
      = some ({ paymentId := pid, orderId := some orderId, amount := some amount, currency := some (jsOr currency "USD"), status := "pending", callbackUrls := some urls, createdAt := now } : PaymentRecord) ∧
    (∀ k r0, db.get k = some r0 →
      Store.get (redirectPayment db true orderId amount currency urls pid token domain now).2 k = some r0) := by
  refine ⟨by simp [redirectPayment], ?_, ?_⟩
  · simp [redirectPayment, Store.get_set_self]
  · intro k r0 hk
    have hne : k ≠ pid := by
      intro e
      rw [e, hfresh] at hk
      cases hk
    simpa [redirectPayment, Store.get_set_ne db pid k _ hne] using hk

/-- C7 witness: redirect_creates_pending_fresh on a store holding one
record under the id q, with the fresh id p: the new pending record is
inserted under p and the record under q is preserved. -/
theorem redirect_creates_pending_fresh_witness :
    Store.get [("q", { paymentId := "q", status := "captured", createdAt := 0 })] "p" = none ∧
    (redirectPayment [("q", { paymentId := "q", status := "captured", createdAt := 0 })] true "o1" 10 none { success := "https://x/s", failure := "https://x/f", cancel := "https://x/c" } "p" "tok" "https://pay" 1).1.code = 200 ∧
    Store.get (redirectPayment [("q", { paymentId := "q", status := "captured", createdAt := 0 })] true "o1" 10 none { success := "https://x/s", failure := "https://x/f", cancel := "https://x/c" } "p" "tok" "https://pay" 1).2 "p"
      = some ({ paymentId := "p", orderId := some "o1", amount := some 10, currency := some (jsOr none "USD"), status := "pending", callbackUrls := some { success := "https://x/s", failure := "https://x/f", cancel := "https://x/c" }, createdAt := 1 } : PaymentRecord) ∧
    Store.get (redirectPayment [("q", { paymentId := "q", status := "captured", createdAt := 0 })] true "o1" 10 none { success := "https://x/s", failure := "https://x/f", cancel := "https://x/c" } "p" "tok" "https://pay" 1).2 "q"
      = some ({ paymentId := "q", status := "captured", createdAt := 0 } : PaymentRecord) :=
  ⟨by decide,
   (redirect_creates_pending_fresh [("q", { paymentId := "q", status := "captured", createdAt := 0 })] "o1" 10 none { success := "https://x/s", failure := "https://x/f", cancel := "https://x/c" } "p" "tok" "https://pay" 1 (by decide)).1,
   (redirect_creates_pending_fresh [("q", { paymentId := "q", status := "captured", createdAt := 0 })] "o1" 10 none { success := "https://x/s", failure := "https://x/f", cancel := "https://x/c" } "p" "tok" "https://pay" 1 (by decide)).2.1,
   (redirect_creates_pending_fresh [("q", { paymentId := "q", status := "captured", createdAt := 0 })] "o1" 10 none { success := "https://x/s", failure := "https://x/f", cancel := "https://x/c" } "p" "tok" "https://pay" 1 (by decide)).2.2
     "q" { paymentId := "q", status := "captured", createdAt := 0 } (by decide)⟩

/-- C8: after a successful create the stored record keeps only the
last four characters of the card number, under cardLast4 (the
variant-1 record additionally keeps the expiry): the strict-server
result record is exactly the old one with status created, cardLast4
and updatedAt refreshed; the whole result of create is unchanged when
the cvv is replaced by any other value and when the number is replaced
by any number with the same last four characters, so neither the cvv
nor the rest of the number is stored anywhere; and cardLast4 holds at
most four characters. -/
theorem create_stores_only_card_tail (db : Store) (pid : String)
    (number expiry cvv number2 cvv2 : String) (now : Nat) (r : PaymentRecord)
    (hr : db.get pid = some r) (hslice : sliceLast4 number = sliceLast4 number2) :
    (createPayment db true pid { number := number, expiry := expiry, cvv := cvv } now).2
      = db.set pid { r with status := "created", cardLast4 := some (sliceLast4 number), updatedAt := some now } ∧
    createPayment db true pid { number := number, expiry := expiry, cvv := cvv } now
      = createPayment db true pid { number := number2, expiry := expiry, cvv := cvv2 } now ∧
    (sliceLast4 number).length ≤ 4 ∧
    createPaymentV1 db pid { number := number, expiry := expiry, cvv := cvv } now
      = createPaymentV1 db pid { number := number2, expiry := expiry, cvv := cvv2 } now ∧
    Store.get (createPaymentV1 db pid { number := number, expiry := expiry, cvv := cvv } now).2 pid
      = some ({ paymentId := pid, status := "created", cardLast4 := some (sliceLast4 number), cardExpiry := some expiry, createdAt := now, updatedAt := some now } : PaymentRecord) := by
  refine ⟨?_, ?_, ?_, ?_, ?_⟩
  · simp [createPayment, hr]
  · simp [createPayment, hslice]
  · have h1 : (sliceLast4 number).length = (number.data.drop (number.data.length - 4)).length := rfl
    rw [h1, List.length_drop]
    omega
  · simp [createPaymentV1, hslice]
  · simp [createPaymentV1, Store.get_set_self]

/-- C8 witness: create_stores_only_card_tail with two card numbers
sharing the tail 4242 and two different cvv values: the strict create
gives identical results. -/
theorem create_stores_only_card_tail_witness :
    (Store.get [("p", { paymentId := "p", status := "pending", createdAt := 0 })] "p"
        = some ({ paymentId := "p", status := "pending", createdAt := 0 } : PaymentRecord)) ∧
    sliceLast4 "4111111111114242" = sliceLast4 "9999999999994242" ∧
    createPayment [("p", { paymentId := "p", status := "pending", createdAt := 0 })] true "p" { number := "4111111111114242", expiry := "12/30", cvv := "123" } 1
      = createPayment [("p", { paymentId := "p", status := "pending", createdAt := 0 })] true "p" { number := "9999999999994242", expiry := "12/30", cvv := "999" } 1 :=
  ⟨by decide, by decide,
   (create_stores_only_card_tail [("p", { paymentId := "p", status := "pending", createdAt := 0 })] "p"
     "4111111111114242" "12/30" "123" "9999999999994242" "999" 1
     { paymentId := "p", status := "pending", createdAt := 0 } (by decide) (by decide)).2.1⟩

/-- C9: for a record created by redirect (its callbackUrls mapping has
exactly the keys success, failure, cancel), a strict-server callback
with a matching signature and status failed or canceled indexes the
mapping with the literal status value, which is not one of its keys:
the lookup yields none and the returned redirectUrl is the undefined
interpolation followed by the signed query parameter, built from
neither the stored failure URL nor the stored cancel URL; only status
success hits a present key and the redirectUrl starts with the stored
success URL. -/
theorem callback_status_key_mismatch (sigOf : String → String → String) (db : Store)
    (pid status : String) (now : Nat) (r : PaymentRecord) (urls : CallbackUrls)
    (hr : db.get pid = some r) (hurls : r.callbackUrls = some urls) :
    ((status = "failed" ∨ status = "canceled") →
      urls.lookup status = none ∧
      (callbackPayment sigOf db pid status (sigOf pid status) now).1.redirectUrl
        = some ("undefined" ++ "&sig=" ++ sigOf pid status)) ∧
    (status = "success" →
      urls.lookup status = some urls.success ∧
      (callbackPayment sigOf db pid status (sigOf pid status) now).1.redirectUrl
        = some (urls.success ++ "&sig=" ++ sigOf pid status)) := by
  constructor
  · rintro (h | h) <;> subst h <;>
      simp [callbackPayment, CallbackUrls.lookup, jsStr, hr, hurls]
  · intro h
    subst h
    simp [callbackPayment, CallbackUrls.lookup, jsStr, hr, hurls]

/-- C9 witness: callback_status_key_mismatch on a redirect-shaped
record, status failed with a matching signature: the lookup misses and
the redirectUrl is undefined&sig=hmac rather than anything built from
the stored failure URL. -/
theorem callback_status_key_mismatch_witness :
    (Store.get [("p", { paymentId := "p", status := "pending", createdAt := 0, callbackUrls := some { success := "https://x/s", failure := "https://x/f", cancel := "https://x/c" } })] "p"
        = some ({ paymentId := "p", status := "pending", createdAt := 0, callbackUrls := some { success := "https://x/s", failure := "https://x/f", cancel := "https://x/c" } } : PaymentRecord)) ∧
    ({ success := "https://x/s", failure := "https://x/f", cancel := "https://x/c" } : CallbackUrls).lookup "failed" = none ∧
    (callbackPayment (fun _ _ => "hmac") [("p", { paymentId := "p", status := "pending", createdAt := 0, callbackUrls := some { success := "https://x/s", failure := "https://x/f", cancel := "https://x/c" } })] "p" "failed" ((fun _ _ => "hmac" : String → String → String) "p" "failed") 1).1.redirectUrl
      = some "undefined&sig=hmac" :=
  ⟨by decide,
   by
     have h := (callback_status_key_mismatch (fun _ _ => "hmac")
       [("p", { paymentId := "p", status := "pending", createdAt := 0, callbackUrls := some { success := "https://x/s", failure := "https://x/f", cancel := "https://x/c" } })]
       "p" "failed" 1
       { paymentId := "p", status := "pending", createdAt := 0, callbackUrls := some { success := "https://x/s", failure := "https://x/f", cancel := "https://x/c" } }
       { success := "https://x/s", failure := "https://x/f", cancel := "https://x/c" }
       (by decide) (by decide)).1 (Or.inl rfl)
     exact h.1,
   by
     have h := (callback_status_key_mismatch (fun _ _ => "hmac")
       [("p", { paymentId := "p", status := "pending", createdAt := 0, callbackUrls := some { success := "https://x/s", failure := "https://x/f", cancel := "https://x/c" } })]
       "p" "failed" 1
       { paymentId := "p", status := "pending", createdAt := 0, callbackUrls := some { success := "https://x/s", failure := "https://x/f", cancel := "https://x/c" } }
       { success := "https://x/s", failure := "https://x/f", cancel := "https://x/c" }
       (by decide) (by decide)).1 (Or.inl rfl)
     exact h.2.trans (by decide)⟩

/-- Callback URLs of the concrete run used against claim C2. -/
def cexUrls : CallbackUrls :=
  { success := "https://x/s", failure := "https://x/f", cancel := "https://x/c" }

/-- Card details of the concrete run used against claim C2. -/
def cexCard : CardDetails :=
  { number := "4242424242424242", expiry := "12/30", cvv := "123" }

/-- Store after redirect on the empty store (claim C2 run). -/
def cexDb1 : Store := (redirectPayment [] true "o1" 10 none cexUrls "p" "tok" "https://pay" 0).2

/-- Store after the first create (claim C2 run). -/
def cexDb2 : Store := (createPayment cexDb1 true "p" cexCard 1).2

/-- Store after capture (claim C2 run). -/
def cexDb3 : Store := (capturePayment cexDb2 "p" 10 2).2

/-- Store after refund (claim C2 run). -/
def cexDb4 : Store := (refundPayment cexDb3 "p" 10 3).2

/-- C2 counterexample: on the strict server, after the operation
sequence redirect, create, capture, refund from the empty store the
record has status refunded, yet a further create call succeeds with 200
and moves the status back to created — an edge the claim rules out
(create never moves a refunded record back to created). -/
theorem create_moves_refunded_to_created_cex :
    (Store.get cexDb4 "p").map PaymentRecord.status = some "refunded" ∧
    (createPayment cexDb4 true "p" cexCard 4).1.code = 200 ∧
    (Store.get (createPayment cexDb4 true "p" cexCard 4).2 "p").map PaymentRecord.status
      = some "created" := by
  decide

/-- C2 amended: on the strict server, for requests that are
environmentally well formed (redirect ids fresh, callback status in
the schema set success, failed, canceled), the status of an existing
record changes only along the edges pending to created to captured to
refunded, pending or created to canceled, any status to a
callback-supplied terminal value — and additionally any status to
created via create, whose handler checks only existence and not the
current status. -/
theorem status_transition_edges (sigOf : String → String → String) (domain : String)
    (op : Op) (db : Store) (pid : String) (r r' : PaymentRecord)
    (hwf : wfOp db op = true)
    (h : db.get pid = some r)
    (h' : Store.get (applyOp sigOf domain op db) pid = some r') :
    r'.status = r.status ∨ allowedEdge r.status r'.status = true := by
  cases op with
  | redirect valid orderId amount currency urls rpid token now =>
    simp [wfOp] at hwf
    by_cases hv : valid
    · simp only [applyOp, redirectPayment, hv, if_true] at h'
      rcases Store.get_set_cases _ _ _ _ _ h' with ⟨e, _⟩ | ⟨hne, hg⟩
      · rw [e, hwf] at h
        cases h
      · rw [h] at hg
        exact Or.inl (congrArg PaymentRecord.status (Option.some.inj hg)).symm
    · simp [applyOp, redirectPayment, hv] at h'
      rw [h] at h'
      exact Or.inl (congrArg PaymentRecord.status (Option.some.inj h')).symm
  | create valid cpid card now =>
    by_cases hv : valid
    · simp only [applyOp, createPayment, hv, if_true] at h'
      cases hm : db.get cpid with
      | none =>
        rw [hm] at h'
        simp only at h'
        rw [h] at h'
        exact Or.inl (congrArg PaymentRecord.status (Option.some.inj h')).symm
      | some payment =>
        rw [hm] at h'
        simp only at h'
        rcases Store.get_set_cases _ _ _ _ _ h' with ⟨e, hv'⟩ | ⟨hne, hg⟩
        · right
          simp [hv', allowedEdge]
        · rw [h] at hg
          exact Or.inl (congrArg PaymentRecord.status (Option.some.inj hg)).symm
    · simp [applyOp, createPayment, hv] at h'
      rw [h] at h'
      exact Or.inl (congrArg PaymentRecord.status (Option.some.inj h')).symm
  | capture cpid amount now =>
    simp only [applyOp, capturePayment] at h'
    cases hm : db.get cpid with
    | none =>
      rw [hm] at h'
      simp only at h'
      rw [h] at h'
      exact Or.inl (congrArg PaymentRecord.status (Option.some.inj h')).symm
    | some payment =>
      rw [hm] at h'
      by_cases hs : payment.status = "created"
      · simp only [hs, ne_eq, not_true_eq_false, if_false] at h'
        rcases Store.get_set_cases _ _ _ _ _ h' with ⟨e, hv'⟩ | ⟨hne, hg⟩
        · right
          rw [e] at h
          rw [hm] at h
          have hrp : r = payment := (Option.some.inj h).symm
          simp [hv', hrp, hs, allowedEdge]
        · rw [h] at hg
          exact Or.inl (congrArg PaymentRecord.status (Option.some.inj hg)).symm
      · simp only [hs, ne_eq, not_false_eq_true, if_true] at h'
        rw [h] at h'
        exact Or.inl (congrArg PaymentRecord.status (Option.some.inj h')).symm
  | refund cpid amount now =>
    simp only [applyOp, refundPayment] at h'
    cases hm : db.get cpid with
    | none =>
      rw [hm] at h'
      simp only at h'
      rw [h] at h'
      exact Or.inl (congrArg PaymentRecord.status (Option.some.inj h')).symm
    | some payment =>
      rw [hm] at h'
      by_cases hs : payment.status = "captured"
      · simp only [hs, ne_eq, not_true_eq_false, if_false] at h'
        rcases Store.get_set_cases _ _ _ _ _ h' with ⟨e, hv'⟩ | ⟨hne, hg⟩
        · right
          rw [e] at h
          rw [hm] at h
          have hrp : r = payment := (Option.some.inj h).symm
          simp [hv', hrp, hs, allowedEdge]
        · rw [h] at hg
          exact Or.inl (congrArg PaymentRecord.status (Option.some.inj hg)).symm
      · simp only [hs, ne_eq, not_false_eq_true, if_true] at h'
        rw [h] at h'
        exact Or.inl (congrArg PaymentRecord.status (Option.some.inj h')).symm
  | cancel cpid now =>
    simp only [applyOp, cancelPayment] at h'
    cases hm : db.get cpid with
    | none =>
      rw [hm] at h'
      simp only at h'
      rw [h] at h'
      exact Or.inl (congrArg PaymentRecord.status (Option.some.inj h')).symm
    | some payment =>
      rw [hm] at h'
      by_cases hs : payment.status ∈ (["pending", "created"] : List String)
      · simp only [hs, not_true_eq_false, if_false] at h'
        rcases Store.get_set_cases _ _ _ _ _ h' with ⟨e, hv'⟩ | ⟨hne, hg⟩
        · right
          simp [hv', allowedEdge]
        · rw [h] at hg
          exact Or.inl (congrArg PaymentRecord.status (Option.some.inj hg)).symm
      · simp only [hs, not_false_eq_true, if_true] at h'
        rw [h] at h'
        exact Or.inl (congrArg PaymentRecord.status (Option.some.inj h')).symm
  | callback cpid status sig now =>
    simp only [wfOp, decide_eq_true_eq] at hwf
    simp only [applyOp, callbackPayment] at h'
    cases hm : db.get cpid with
    | none =>
      rw [hm] at h'
      simp only at h'
      rw [h] at h'
      exact Or.inl (congrArg PaymentRecord.status (Option.some.inj h')).symm
    | some payment =>
      rw [hm] at h'
      by_cases hsig : sig = sigOf cpid status
      · simp only [hsig, ne_eq, not_true_eq_false, if_false] at h'
        cases hcu : payment.callbackUrls with
        | none =>
          rw [hcu] at h'
          simp only at h'
          rcases Store.get_set_cases _ _ _ _ _ h' with ⟨e, hv'⟩ | ⟨hne, hg⟩
          · right
            rcases hwf with hst | hst | hst <;> simp [hv', hst, allowedEdge]
          · rw [h] at hg
            exact Or.inl (congrArg PaymentRecord.status (Option.some.inj hg)).symm
        | some urls =>
          rw [hcu] at h'
          simp only at h'
          rcases Store.get_set_cases _ _ _ _ _ h' with ⟨e, hv'⟩ | ⟨hne, hg⟩
          · right
            rcases hwf with hst | hst | hst <;> simp [hv', hst, allowedEdge]
          · rw [h] at hg
            exact Or.inl (congrArg PaymentRecord.status (Option.some.inj hg)).symm
      · simp only [hsig, ne_eq, not_false_eq_true, if_true] at h'
        rw [h] at h'
        exact Or.inl (congrArg PaymentRecord.status (Option.some.inj h')).symm

/-- C2 witness: status_transition_edges at the concrete capture of a
one-record store whose record has status created: the status moves
along the allowed edge created to captured. -/
theorem status_transition_edges_witness :
    wfOp [("p", { paymentId := "p", status := "created", createdAt := 0 })] (Op.capture "p" 5 1) = true ∧
    Store.get [("p", { paymentId := "p", status := "created", createdAt := 0 })] "p"
      = some ({ paymentId := "p", status := "created", createdAt := 0 } : PaymentRecord) ∧
    Store.get (applyOp (fun _ _ => "hmac") "https://pay" (Op.capture "p" 5 1) [("p", { paymentId := "p", status := "created", createdAt := 0 })]) "p"
      = some ({ paymentId := "p", status := "captured", createdAt := 0, capturedAmount := some 5, updatedAt := some 1 } : PaymentRecord) ∧
    (({ paymentId := "p", status := "captured", createdAt := 0, capturedAmount := some 5, updatedAt := some 1 } : PaymentRecord).status
        = ({ paymentId := "p", status := "created", createdAt := 0 } : PaymentRecord).status ∨
      allowedEdge ({ paymentId := "p", status := "created", createdAt := 0 } : PaymentRecord).status
        ({ paymentId := "p", status := "captured", createdAt := 0, capturedAmount := some 5, updatedAt := some 1 } : PaymentRecord).status = true) :=
  ⟨by decide, by decide, by decide,
   status_transition_edges (fun _ _ => "hmac") "https://pay" (Op.capture "p" 5 1)
     [("p", { paymentId := "p", status := "created", createdAt := 0 })] "p"
     { paymentId := "p", status := "created", createdAt := 0 }
     { paymentId := "p", status := "captured", createdAt := 0, capturedAmount := some 5, updatedAt := some 1 }
     (by decide) (by decide) (by decide)⟩

end Payment
